import Mathlib

/-!
# solana-gogo: instruction builders

A shallow embedding of

* `programs/ed25519-sig-verify/instructions.go`
* `programs/associated-token-account/RecoverNested.go`
* `programs/associated-token-account/CreateIdempotent.go`

Go values are modelled as follows.

* `byte` is `Fin 256`; `uint16` values are naturals reduced `% 65536`.
* `[]byte` is `List Byte`; the fixed-size arrays `solana.PublicKey` (`[32]byte`)
  and `solana.Signature` (`[64]byte`) are lists of exactly that length.
* `error` is `Option Error` (`none` is Go's `nil`); a pointer result such as
  `*Instruction` is `Option Instruction` (`none` is Go's `nil`).
* A Go multi-value return `(a, b, err)` is a Lean tuple.
-/

namespace SolanaGogo

/-! ## Shared Go / solana-go vocabulary -/

/-- A Go `byte`. -/
abbrev Byte := Fin 256

/-- Go's `error` values as built in these files: `errors.New(msg)` and
`fmt.Errorf(format, err)` with a single wrapping `%w` verb. -/
inductive Error where
  | new (msg : String)
  | errorf (format : String) (wrapped : Error)
  deriving DecidableEq, Repr

/-- The type `solana.PublicKey`, a `[32]byte`. -/
abbrev PublicKey := { l : List Byte // l.length = 32 }

/-- The type `solana.Signature`, a `[64]byte`. -/
abbrev Signature := { l : List Byte // l.length = 64 }

/-- The zero value `solana.PublicKey{}`. -/
def zeroPublicKey : PublicKey := ⟨List.replicate 32 0, by simp⟩

/-- The method `PublicKey.IsZero`: equality with the zero value. -/
def PublicKey.IsZero (p : PublicKey) : Bool := decide (p = zeroPublicKey)

/-- The conversion `uint16(n)` of a Go `int`. -/
def uint16 (n : Nat) : Nat := n % 65536

/-- The constant `math.MaxUint16`. -/
def MaxUint16 : Nat := 65535

/-- The conversion `byte(v)` of an unsigned value. -/
def toByte (v : Nat) : Byte := ⟨v % 256, Nat.mod_lt _ (by decide)⟩

/-- The function `binary.LittleEndian.AppendUint16`: appends `byte(v)`, `byte(v >> 8)`. -/
def AppendUint16 (b : List Byte) (v : Nat) : List Byte :=
  b ++ [toByte v, toByte (v / 256)]

/-- The function `binary.LittleEndian.Uint16` applied to `b[off:]`; a missing byte reads as 0. -/
def Uint16At (b : List Byte) (off : Nat) : Nat :=
  (b.getD off 0).val + 256 * (b.getD (off + 1) 0).val

/-- The slice expression `b[off : off+n]`. -/
def sliceAt (b : List Byte) (off n : Nat) : List Byte := (b.drop off).take n

/-- The two bytes of a 16-bit value, low byte first. -/
def LE16 (v : Nat) : List Byte := [toByte v, toByte (v / 256)]

/-! ## `programs/ed25519-sig-verify/instructions.go` -/

namespace Ed25519SigVerify

/-- The struct `Instruction`. -/
structure Instruction where
  Signer : PublicKey
  Signature : Signature
  Message : List Byte

/-- The method `Instruction.Data`. -/
def Instruction.Data (inst : Instruction) : List Byte × Option Error :=
  let data : List Byte := []
  let data := data ++ [1]
  let data := data ++ [0]
  let signerOffset := uint16 16
  let sigOffset := uint16 (signerOffset + 32)
  let msgOffset := uint16 (sigOffset + 64)
  let data := AppendUint16 data sigOffset
  let data := AppendUint16 data MaxUint16
  let data := AppendUint16 data signerOffset
  let data := AppendUint16 data MaxUint16
  let data := AppendUint16 data msgOffset
  let data := AppendUint16 data (uint16 inst.Message.length)
  let data := AppendUint16 data MaxUint16
  let data := data ++ inst.Signer.val
  let data := data ++ inst.Signature.val
  let data := data ++ inst.Message
  (data, none)

/-- The sample of the spec: signer 32 x 0x11, signature 64 x 0x22, message "hi". -/
def sampleInstruction : Instruction :=
  { Signer := ⟨List.replicate 32 0x11, by simp⟩,
    Signature := ⟨List.replicate 64 0x22, by simp⟩,
    Message := [0x68, 0x69] }

/-- The sample signer and signature with a message of 65536 zero bytes. -/
def longInstruction : Instruction :=
  { Signer := ⟨List.replicate 32 0x11, by simp⟩,
    Signature := ⟨List.replicate 64 0x22, by simp⟩,
    Message := List.replicate 65536 0 }

end Ed25519SigVerify

/-! ## `programs/associated-token-account` -/

namespace AssociatedTokenAccount

/-- The struct `solana.AccountMeta`. -/
structure AccountMeta where
  PublicKey : PublicKey
  IsSigner : Bool
  IsWritable : Bool
  deriving DecidableEq

/-- What the two builders take from outside their own files: the address derivation and
the well-known identifiers of the `solana` package, and the two instruction ids of this
package, which are declared next to the `Instruction` type.

`FindAssociatedTokenAddress` has the Go result `(PublicKey, uint8, error)`: the address,
the bump and the error are all present in every result, and a caller may read the address
whether or not the error is `nil`. -/
structure Env where
  FindAssociatedTokenAddress : PublicKey → PublicKey → PublicKey × Byte × Option Error
  TokenProgramID : PublicKey
  SystemProgramID : PublicKey
  SysVarRentPubkey : PublicKey
  Instruction_CreateIdempotent : Byte
  Instruction_RecoverNested : Byte

/-- The type `bin.TypeID`, a `[8]byte`. -/
abbrev TypeID := { l : List Byte // l.length = 8 }

/-- The function `bin.TypeIDFromUint8`: the id whose first byte is `v`, the rest zero. -/
def TypeIDFromUint8 (v : Byte) : TypeID := ⟨v :: List.replicate 7 0, by simp⟩

/-- The method `TypeID.Uint8`: the first byte of the id. -/
def TypeID.Uint8 (t : TypeID) : Byte := t.val.headD 0

/-- The struct `RecoverNested`; the embedded `solana.AccountMetaSlice` is a field. -/
structure RecoverNested where
  Wallet : PublicKey
  OwnerMint : PublicKey
  NestedMint : PublicKey
  AccountMetaSlice : List AccountMeta
  deriving DecidableEq

/-- Modelled from the spec: the record `Create` that `CreateIdempotent` embeds is declared
in a file outside the available sources. Its fields are the ones `CreateIdempotent.go`
reads and writes through the embedding: `Payer`, `Wallet`, `Mint` and the account list
(spec §4.3 "Fields: payer, wallet, token-class identifier", §9 "shared base fields"). -/
structure Create where
  Payer : PublicKey
  Wallet : PublicKey
  Mint : PublicKey
  AccountMetaSlice : List AccountMeta
  deriving DecidableEq

/-- The struct `CreateIdempotent`; the embedded `Create` is a field. -/
structure CreateIdempotent where
  Create : Create
  associatedToken : PublicKey
  programID : PublicKey
  deriving DecidableEq

/-- The values stored in `bin.BaseVariant.Impl` by the two `Build` methods. -/
inductive InstructionImpl where
  | createIdempotent (inst : CreateIdempotent)
  | recoverNested (inst : RecoverNested)
  deriving DecidableEq

/-- The struct `bin.BaseVariant`. -/
structure BaseVariant where
  Impl : InstructionImpl
  TypeID : TypeID
  deriving DecidableEq

/-- The struct `Instruction` of this package, which wraps a `bin.BaseVariant`. -/
structure Instruction where
  BaseVariant : BaseVariant
  deriving DecidableEq

/-- The constructor `NewRecoverNestedInstructionBuilder`: every field at its zero value. -/
def NewRecoverNestedInstructionBuilder : RecoverNested :=
  { Wallet := zeroPublicKey, OwnerMint := zeroPublicKey, NestedMint := zeroPublicKey,
    AccountMetaSlice := [] }

/-- The constructor `NewCreateIdempotentInstructionBuilder`: every field at its zero value. -/
def NewCreateIdempotentInstructionBuilder : CreateIdempotent :=
  { Create := { Payer := zeroPublicKey, Wallet := zeroPublicKey, Mint := zeroPublicKey,
                AccountMetaSlice := [] },
    associatedToken := zeroPublicKey, programID := zeroPublicKey }

/-- The method `RecoverNested.Build`. The receiver is a value, so the assignment to
`inst.AccountMetaSlice` changes the copy that is stored in the instruction. -/
def RecoverNested.Build (env : Env) (inst : RecoverNested) : Option Instruction :=
  let ownerAssociatedTokenAddress := (env.FindAssociatedTokenAddress inst.Wallet inst.OwnerMint).1
  let dstAssociatedTokenAddress := (env.FindAssociatedTokenAddress inst.Wallet inst.NestedMint).1
  let nestedAssociatedTokenAddress :=
    (env.FindAssociatedTokenAddress ownerAssociatedTokenAddress inst.NestedMint).1
  let keys : List AccountMeta := [
    { PublicKey := nestedAssociatedTokenAddress, IsSigner := false, IsWritable := true },
    { PublicKey := inst.NestedMint, IsSigner := false, IsWritable := false },
    { PublicKey := dstAssociatedTokenAddress, IsSigner := false, IsWritable := true },
    { PublicKey := ownerAssociatedTokenAddress, IsSigner := false, IsWritable := false },
    { PublicKey := inst.OwnerMint, IsSigner := false, IsWritable := false },
    { PublicKey := inst.Wallet, IsSigner := true, IsWritable := true },
    { PublicKey := env.TokenProgramID, IsSigner := false, IsWritable := false }]
  let inst := { inst with AccountMetaSlice := keys }
  some { BaseVariant := { Impl := .recoverNested inst,
                          TypeID := TypeIDFromUint8 env.Instruction_RecoverNested } }

/-- The method `RecoverNested.Validate`. -/
def RecoverNested.Validate (env : Env) (inst : RecoverNested) : Option Error :=
  if inst.Wallet.IsZero then
    some (Error.new "Wallet not set")
  else if inst.OwnerMint.IsZero then
    some (Error.new "OwnerMint not set")
  else if inst.NestedMint.IsZero then
    some (Error.new "NestedMint not set")
  else
    let r1 := env.FindAssociatedTokenAddress inst.Wallet inst.OwnerMint
    let ownerAssociatedTokenAddress := r1.1
    match r1.2.2 with
    | some err => some (Error.errorf "error while FindAssociatedTokenAddress: %w" err)
    | none =>
      match (env.FindAssociatedTokenAddress inst.Wallet inst.NestedMint).2.2 with
      | some err => some (Error.errorf "error while FindAssociatedTokenAddress: %w" err)
      | none =>
        match (env.FindAssociatedTokenAddress ownerAssociatedTokenAddress inst.NestedMint).2.2 with
        | some err => some (Error.errorf "error while FindAssociatedTokenAddress: %w" err)
        | none => none

/-- The method `RecoverNested.ValidateAndBuild`. -/
def RecoverNested.ValidateAndBuild (env : Env) (inst : RecoverNested) :
    Option Instruction × Option Error :=
  match inst.Validate env with
  | some err => (none, some err)
  | none => (inst.Build env, none)

/-- The method `CreateIdempotent.Build`. The receiver is a value, so the assignment to
`inst.AccountMetaSlice` changes the copy that is stored in the instruction. -/
def CreateIdempotent.Build (env : Env) (inst : CreateIdempotent) : Option Instruction :=
  let keys : List AccountMeta := [
    { PublicKey := inst.Create.Payer, IsSigner := true, IsWritable := true },
    { PublicKey := inst.associatedToken, IsSigner := false, IsWritable := true },
    { PublicKey := inst.Create.Wallet, IsSigner := false, IsWritable := false },
    { PublicKey := inst.Create.Mint, IsSigner := false, IsWritable := false },
    { PublicKey := env.SystemProgramID, IsSigner := false, IsWritable := false },
    { PublicKey := inst.programID, IsSigner := false, IsWritable := false },
    { PublicKey := env.SysVarRentPubkey, IsSigner := false, IsWritable := false }]
  let inst := { inst with Create := { inst.Create with AccountMetaSlice := keys } }
  some { BaseVariant := { Impl := .createIdempotent inst,
                          TypeID := TypeIDFromUint8 env.Instruction_CreateIdempotent } }

/-- The method `GetAccounts` that both builders get from the embedded
`solana.AccountMetaSlice`: the stored list. -/
def InstructionImpl.GetAccounts : InstructionImpl → List AccountMeta
  | .createIdempotent inst => inst.Create.AccountMetaSlice
  | .recoverNested inst => inst.AccountMetaSlice

/-- Modelled from the spec: the method `Instruction.Accounts` of this package is declared
beside the `Instruction` type, outside the available sources. Spec §3: an instruction
carries the "ordered sequence of AccountMeta" that its builder assembled. -/
def Instruction.Accounts (inst : Instruction) : List AccountMeta :=
  inst.BaseVariant.Impl.GetAccounts

/-- The address of the account at position `i`; the zero address past the end. -/
def Instruction.addressAt (inst : Instruction) (i : Nat) : PublicKey :=
  match inst.Accounts.get? i with
  | some m => m.PublicKey
  | none => zeroPublicKey

/-- The address component of `FindAssociatedTokenAddress(owner, seed)`. -/
def Env.derive (env : Env) (owner seed : PublicKey) : PublicKey :=
  (env.FindAssociatedTokenAddress owner seed).1

/-- The error component of `FindAssociatedTokenAddress(owner, seed)`. -/
def Env.deriveErr (env : Env) (owner seed : PublicKey) : Option Error :=
  (env.FindAssociatedTokenAddress owner seed).2.2

/-- The output side of a `bin.Encoder`: the bytes written so far and the encoding's way of
writing a length, which differs between the encodings the library offers. -/
structure Encoder where
  out : List Byte
  writeLength : Nat → List Byte

/-- The method `bin.Encoder.WriteBytes(b, writeSize)` on an in-memory buffer: the length
of `b` when a size prefix is asked for, then the bytes of `b`. -/
def Encoder.WriteBytes (encoder : Encoder) (b : List Byte) (writeSize : Bool) :
    Encoder × Option Error :=
  let encoder :=
    if writeSize then { encoder with out := encoder.out ++ encoder.writeLength b.length }
    else encoder
  if b.length = 0 then (encoder, none)
  else ({ encoder with out := encoder.out ++ b }, none)

/-- The method `RecoverNested.MarshalWithEncoder`. -/
def RecoverNested.MarshalWithEncoder (_inst : RecoverNested) (encoder : Encoder) :
    Encoder × Option Error :=
  encoder.WriteBytes [] false

/-- Modelled from the spec: `CreateIdempotent` has no marshalling method of its own and
gets the one of the embedded `Create`, which is outside the available sources. Spec §4.3:
"No parameter payload (`data` is empty besides the single-byte discriminant)", so the
method writes nothing and returns no error. -/
def CreateIdempotent.MarshalWithEncoder (_inst : CreateIdempotent) (encoder : Encoder) :
    Encoder × Option Error :=
  (encoder, none)

/-- The parameter payload of the value stored in `Impl`. -/
def InstructionImpl.MarshalWithEncoder : InstructionImpl → Encoder → Encoder × Option Error
  | .createIdempotent inst, encoder => inst.MarshalWithEncoder encoder
  | .recoverNested inst, encoder => inst.MarshalWithEncoder encoder

/-- Modelled from the spec: the method `Instruction.Data` of this package is declared
beside the `Instruction` type, outside the available sources. Spec §3: the instruction is
"identified to the program by a leading discriminant byte inside `data`"; the parameter
payload of the variant follows it. An encoding error gives no data. -/
def Instruction.Data (writeLength : Nat → List Byte) (inst : Instruction) :
    List Byte × Option Error :=
  let encoder : Encoder := { out := [inst.BaseVariant.TypeID.Uint8], writeLength := writeLength }
  match inst.BaseVariant.Impl.MarshalWithEncoder encoder with
  | (_, some err) => ([], some err)
  | (encoder, none) => (encoder.out, none)

/-- The instruction is complete: it has 7 accounts and the addresses at positions 3, 2 and
0 are the results of derivations that returned no error, from the addresses at positions
(5, 4), (5, 1) and (3, 1). -/
def Instruction.Complete (env : Env) (inst : Instruction) : Prop :=
  inst.Accounts.length = 7 ∧
  (env.derive (inst.addressAt 5) (inst.addressAt 4) = inst.addressAt 3 ∧
    env.deriveErr (inst.addressAt 5) (inst.addressAt 4) = none) ∧
  (env.derive (inst.addressAt 5) (inst.addressAt 1) = inst.addressAt 2 ∧
    env.deriveErr (inst.addressAt 5) (inst.addressAt 1) = none) ∧
  (env.derive (inst.addressAt 3) (inst.addressAt 1) = inst.addressAt 0 ∧
    env.deriveErr (inst.addressAt 3) (inst.addressAt 1) = none)

/-- The three derivations that `Build` performs all return no error. -/
def RecoverNested.derivationsSucceed (env : Env) (inst : RecoverNested) : Prop :=
  env.deriveErr inst.Wallet inst.OwnerMint = none ∧
  env.deriveErr inst.Wallet inst.NestedMint = none ∧
  env.deriveErr (env.derive inst.Wallet inst.OwnerMint) inst.NestedMint = none

/-! ### Sample inputs -/

/-- The address whose 32 bytes are all `b`. -/
def sampleKey (b : Byte) : PublicKey := ⟨List.replicate 32 b, by simp⟩

/-- A derivation in which no bump gives an address: the zero address, bump 0 and an error. -/
def failingDerive (_owner _seed : PublicKey) : PublicKey × Byte × Option Error :=
  (zeroPublicKey, 0, some (Error.new "unable to find a valid program address"))

/-- A derivation that always finds an address at bump 255. -/
def succeedingDerive (owner seed : PublicKey) : PublicKey × Byte × Option Error :=
  (⟨List.zipWith (fun x y => x + 2 * y + 1) owner.val seed.val, by
      simp [List.length_zipWith, owner.property, seed.property]⟩, 255, none)

/-- An environment whose derivation always fails. -/
def failingEnv : Env :=
  { FindAssociatedTokenAddress := failingDerive, TokenProgramID := sampleKey 6,
    SystemProgramID := zeroPublicKey, SysVarRentPubkey := sampleKey 7,
    Instruction_CreateIdempotent := 1, Instruction_RecoverNested := 2 }

/-- An environment whose derivation always succeeds. -/
def succeedingEnv : Env :=
  { FindAssociatedTokenAddress := succeedingDerive, TokenProgramID := sampleKey 6,
    SystemProgramID := zeroPublicKey, SysVarRentPubkey := sampleKey 7,
    Instruction_CreateIdempotent := 1, Instruction_RecoverNested := 2 }

/-- A builder with all three fields set to non-zero addresses. -/
def sampleRecoverNested : RecoverNested :=
  { Wallet := sampleKey 1, OwnerMint := sampleKey 2, NestedMint := sampleKey 3,
    AccountMetaSlice := [] }

end AssociatedTokenAccount

/-! ## Further definitions: decoding, constructors, setters and calls -/

/-- The type `solana.Wallet` as `instructions.go` uses it: `PrivateKey.Sign(msg)`, with the
Go result `(Signature, error)`, and `PublicKey()`. Both belong to the `solana` package. -/
structure Wallet where
  Sign : List Byte → Signature × Option Error
  PublicKey : PublicKey

namespace Ed25519SigVerify

/-- The package variable `ProgramID`, initialised to `solana.Ed25519ProgramID` and assigned
nowhere in the package. The library constant is a parameter. -/
def ProgramID (Ed25519ProgramID : PublicKey) : PublicKey := Ed25519ProgramID

/-- The method `Instruction.ProgramID`. -/
def Instruction.ProgramID (Ed25519ProgramID : PublicKey) (_inst : Instruction) : PublicKey :=
  Ed25519SigVerify.ProgramID Ed25519ProgramID

/-- The method `Instruction.Accounts`: the nil slice. -/
def Instruction.Accounts (_inst : Instruction) : List AssociatedTokenAccount.AccountMeta :=
  []

/-- The function `NewEd25519SigVerifyInstruction`. -/
def NewEd25519SigVerifyInstruction (signer : PublicKey) (sig : Signature) (msg : List Byte) :
    Option Instruction :=
  some { Signer := signer, Signature := sig, Message := msg }

/-- The function `NewEd25519SigVerifyInstructionWithWallet`. -/
def NewEd25519SigVerifyInstructionWithWallet (signer : Wallet) (msg : List Byte) :
    Option Instruction × Option Error :=
  match signer.Sign msg with
  | (_, some err) => (none, some err)
  | (sig, none) => (some { Signer := signer.PublicKey, Signature := sig, Message := msg }, none)

/-- A wallet whose signing always fails. -/
def failingWallet : Wallet :=
  { Sign := fun _ => (⟨List.replicate 64 0, by simp⟩, some (Error.new "signing failed")),
    PublicKey := ⟨List.replicate 32 0x11, by simp⟩ }

end Ed25519SigVerify

namespace AssociatedTokenAccount

/-- The input side of a `bin.Decoder`: the bytes and the read position. -/
structure Decoder where
  data : List Byte
  pos : Nat
  deriving DecidableEq

/-- The method `RecoverNested.UnmarshalWithDecoder`: the receiver and the decoder after the
call, and the error. -/
def RecoverNested.UnmarshalWithDecoder (inst : RecoverNested) (decoder : Decoder) :
    RecoverNested × Decoder × Option Error :=
  (inst, decoder, none)

/-- The method `RecoverNested.SetWallet`: the builder behind the returned pointer, which is
the receiver. -/
def RecoverNested.SetWallet (inst : RecoverNested) (wallet : PublicKey) : RecoverNested :=
  { inst with Wallet := wallet }

/-- The method `RecoverNested.SetOwnerMint`. -/
def RecoverNested.SetOwnerMint (inst : RecoverNested) (ownerMint : PublicKey) : RecoverNested :=
  { inst with OwnerMint := ownerMint }

/-- The method `RecoverNested.SetNestedMint`. -/
def RecoverNested.SetNestedMint (inst : RecoverNested) (nestedMint : PublicKey) :
    RecoverNested :=
  { inst with NestedMint := nestedMint }

/-- The function `NewRecoverNestedInstruction`. -/
def NewRecoverNestedInstruction (Wallet OwnerMint NestedMint : PublicKey) : RecoverNested :=
  ((NewRecoverNestedInstructionBuilder.SetWallet Wallet).SetOwnerMint OwnerMint).SetNestedMint
    NestedMint

/-- The method `CreateIdempotent.SetPayer`: the builder behind the returned pointer, which
is the receiver. -/
def CreateIdempotent.SetPayer (inst : CreateIdempotent) (payer : PublicKey) : CreateIdempotent :=
  { inst with Create := { inst.Create with Payer := payer } }

/-- The method `CreateIdempotent.SetWallet`. -/
def CreateIdempotent.SetWallet (inst : CreateIdempotent) (wallet : PublicKey) :
    CreateIdempotent :=
  { inst with Create := { inst.Create with Wallet := wallet } }

/-- The method `CreateIdempotent.SetMint`. -/
def CreateIdempotent.SetMint (inst : CreateIdempotent) (mint : PublicKey) : CreateIdempotent :=
  { inst with Create := { inst.Create with Mint := mint } }

/-- The method `CreateIdempotent.SetAssociatedToken`. -/
def CreateIdempotent.SetAssociatedToken (inst : CreateIdempotent) (associatedToken : PublicKey) :
    CreateIdempotent :=
  { inst with associatedToken := associatedToken }

/-- The method `CreateIdempotent.SetProgramID`. -/
def CreateIdempotent.SetProgramID (inst : CreateIdempotent) (tokenProgramID : PublicKey) :
    CreateIdempotent :=
  { inst with programID := tokenProgramID }

/-- The function `NewCreateIdempotentInstruction`. -/
def NewCreateIdempotentInstruction (Payer associatedToken Wallet Mint programID : PublicKey) :
    CreateIdempotent :=
  ((((NewCreateIdempotentInstructionBuilder.SetPayer Payer).SetAssociatedToken
    associatedToken).SetWallet Wallet).SetMint Mint).SetProgramID programID

/-- The body of `RecoverNested.Build` run on its receiver variable: the receiver variable
when the body returns, and the result. -/
def RecoverNested.BuildBody (env : Env) (inst : RecoverNested) :
    RecoverNested × Option Instruction :=
  let ownerAssociatedTokenAddress := (env.FindAssociatedTokenAddress inst.Wallet inst.OwnerMint).1
  let dstAssociatedTokenAddress := (env.FindAssociatedTokenAddress inst.Wallet inst.NestedMint).1
  let nestedAssociatedTokenAddress :=
    (env.FindAssociatedTokenAddress ownerAssociatedTokenAddress inst.NestedMint).1
  let keys : List AccountMeta := [
    { PublicKey := nestedAssociatedTokenAddress, IsSigner := false, IsWritable := true },
    { PublicKey := inst.NestedMint, IsSigner := false, IsWritable := false },
    { PublicKey := dstAssociatedTokenAddress, IsSigner := false, IsWritable := true },
    { PublicKey := ownerAssociatedTokenAddress, IsSigner := false, IsWritable := false },
    { PublicKey := inst.OwnerMint, IsSigner := false, IsWritable := false },
    { PublicKey := inst.Wallet, IsSigner := true, IsWritable := true },
    { PublicKey := env.TokenProgramID, IsSigner := false, IsWritable := false }]
  let inst := { inst with AccountMetaSlice := keys }
  (inst, some { BaseVariant := { Impl := .recoverNested inst,
                                 TypeID := TypeIDFromUint8 env.Instruction_RecoverNested } })

/-- A call `b.Build()` on the caller's builder `b`. `Build` is declared on the value
`RecoverNested`, not on a pointer, so Go runs the body on a copy of `b`: the pair is the
caller's `b` after the call and the result of the body. -/
def RecoverNested.callBuild (env : Env) (b : RecoverNested) :
    RecoverNested × Option Instruction :=
  let receiver := b
  (b, (receiver.BuildBody env).2)

/-- The body of `CreateIdempotent.Build` run on its receiver variable: the receiver
variable when the body returns, and the result. -/
def CreateIdempotent.BuildBody (env : Env) (inst : CreateIdempotent) :
    CreateIdempotent × Option Instruction :=
  let keys : List AccountMeta := [
    { PublicKey := inst.Create.Payer, IsSigner := true, IsWritable := true },
    { PublicKey := inst.associatedToken, IsSigner := false, IsWritable := true },
    { PublicKey := inst.Create.Wallet, IsSigner := false, IsWritable := false },
    { PublicKey := inst.Create.Mint, IsSigner := false, IsWritable := false },
    { PublicKey := env.SystemProgramID, IsSigner := false, IsWritable := false },
    { PublicKey := inst.programID, IsSigner := false, IsWritable := false },
    { PublicKey := env.SysVarRentPubkey, IsSigner := false, IsWritable := false }]
  let inst := { inst with Create := { inst.Create with AccountMetaSlice := keys } }
  (inst, some { BaseVariant := { Impl := .createIdempotent inst,
                                 TypeID := TypeIDFromUint8 env.Instruction_CreateIdempotent } })

/-- A call `b.Build()` on the caller's builder `b`; the receiver is a value, so the body
runs on a copy of `b`. -/
def CreateIdempotent.callBuild (env : Env) (b : CreateIdempotent) :
    CreateIdempotent × Option Instruction :=
  let receiver := b
  (b, (receiver.BuildBody env).2)

end AssociatedTokenAccount

/-! ## Address derivation -/

namespace Derivation

/-- What the derivation of spec §4.1 is built on: the hash of the seed list extended with
the namespace program and the bump, and the test that an address lies on the signing
curve (is a valid key-pair address). -/
structure Params where
  hashResult : PublicKey → PublicKey → Byte → PublicKey
  onCurve : PublicKey → Bool

/-- The error `NoValidAddressFound` of spec §4.1. -/
def NoValidAddressFound : Error := Error.new "NoValidAddressFound"

/-- The search over the bumps below `k`, from `k - 1` downward: the first bump whose hash
result is off the curve, with its address; the error when there is none. -/
def findBump (P : Params) (owner seed : PublicKey) : Nat → PublicKey × Byte × Option Error
  | 0 => (zeroPublicKey, 0, some NoValidAddressFound)
  | k + 1 =>
    let address := P.hashResult owner seed (toByte k)
    if P.onCurve address then findBump P owner seed k
    else (address, toByte k, none)

/-- Modelled from the spec: the function `solana.FindAssociatedTokenAddress` that the
builders call is not among the available sources, only its callers are. Spec §4.1: the
derived address is the hash result, "iterating the bump byte downward from 255 until the
hash result is provably not a valid key-pair address"; it "fails with
`NoValidAddressFound` if no bump in [0,255] satisfies the off-curve condition". -/
def FindAssociatedTokenAddress (P : Params) (owner seed : PublicKey) :
    PublicKey × Byte × Option Error :=
  findBump P owner seed 256

/-- Sample parameters: the hash result ends in the bump, and an address is on the curve
when its last byte is above 200. -/
def sampleParams : Params :=
  { hashResult := fun owner _seed bump => ⟨owner.val.take 31 ++ [bump], by
      simp [List.length_take, owner.property]⟩,
    onCurve := fun a => decide (200 < (a.val.getD 31 0).val) }

end Derivation

/-! ## Theorems -/

/-- The 16 header bytes followed by signer, signature and message. -/
theorem Ed25519SigVerify.Data_eq (inst : Instruction) :
    inst.Data =
      ([1, 0, 48, 0, 255, 255, 16, 0, 255, 255, 112, 0,
          toByte (inst.Message.length % 65536), toByte (inst.Message.length % 65536 / 256),
          255, 255]
        ++ inst.Signer.val ++ inst.Signature.val ++ inst.Message, none) := by
  simp [Instruction.Data, AppendUint16, uint16, MaxUint16, toByte]

/-- C1: for a 32-byte signer, a 64-byte signature and a message shorter than 65536
bytes, `Data()` returns no error and the bytes 0x01, 0x00, LE16(48), 0xFF 0xFF, LE16(16),
0xFF 0xFF, LE16(112), LE16(len(message)), 0xFF 0xFF, then signer, signature, message. -/
theorem C1_Data_layout (signer : PublicKey) (sig : Signature) (msg : List Byte)
    (hlen : msg.length < 65536) :
    (Ed25519SigVerify.Instruction.Data ⟨signer, sig, msg⟩).2 = none ∧
    (Ed25519SigVerify.Instruction.Data ⟨signer, sig, msg⟩).1 =
      [0x01, 0x00] ++ LE16 48 ++ [0xFF, 0xFF] ++ LE16 16 ++ [0xFF, 0xFF] ++ LE16 112
        ++ LE16 msg.length ++ [0xFF, 0xFF] ++ signer.val ++ sig.val ++ msg := by
  rw [Ed25519SigVerify.Data_eq]
  simp [LE16, toByte, Nat.mod_eq_of_lt hlen]

/-- C1 at the sample of the spec: signer 32 x 0x11, signature 64 x 0x22, message "hi". -/
theorem C1_Data_layout_witness :
    Ed25519SigVerify.sampleInstruction.Message.length < 65536 ∧
    (Ed25519SigVerify.Instruction.Data
        ⟨Ed25519SigVerify.sampleInstruction.Signer, Ed25519SigVerify.sampleInstruction.Signature,
          Ed25519SigVerify.sampleInstruction.Message⟩).2 = none ∧
    (Ed25519SigVerify.Instruction.Data
        ⟨Ed25519SigVerify.sampleInstruction.Signer, Ed25519SigVerify.sampleInstruction.Signature,
          Ed25519SigVerify.sampleInstruction.Message⟩).1 =
      [0x01, 0x00] ++ LE16 48 ++ [0xFF, 0xFF] ++ LE16 16 ++ [0xFF, 0xFF] ++ LE16 112
        ++ LE16 Ed25519SigVerify.sampleInstruction.Message.length ++ [0xFF, 0xFF]
        ++ Ed25519SigVerify.sampleInstruction.Signer.val
        ++ Ed25519SigVerify.sampleInstruction.Signature.val
        ++ Ed25519SigVerify.sampleInstruction.Message :=
  ⟨by decide,
    C1_Data_layout Ed25519SigVerify.sampleInstruction.Signer
      Ed25519SigVerify.sampleInstruction.Signature
      Ed25519SigVerify.sampleInstruction.Message (by decide)⟩

/-! ### Account lists of the two builders -/

/-- C2: `RecoverNested.Build` returns an instruction with exactly these 7 account metas,
in this order: nested associated account (writable), nested mint, wallet's associated
account (writable), owner associated account, owner mint, wallet (signer, writable),
token program; the wallet entry is the only one with the signer flag. -/
theorem C2_RecoverNested_Build_accounts (env : AssociatedTokenAccount.Env)
    (inst : AssociatedTokenAccount.RecoverNested) :
    ∃ i, inst.Build env = some i ∧
      i.Accounts =
        [ { PublicKey := env.derive (env.derive inst.Wallet inst.OwnerMint) inst.NestedMint,
            IsSigner := false, IsWritable := true },
          { PublicKey := inst.NestedMint, IsSigner := false, IsWritable := false },
          { PublicKey := env.derive inst.Wallet inst.NestedMint,
            IsSigner := false, IsWritable := true },
          { PublicKey := env.derive inst.Wallet inst.OwnerMint,
            IsSigner := false, IsWritable := false },
          { PublicKey := inst.OwnerMint, IsSigner := false, IsWritable := false },
          { PublicKey := inst.Wallet, IsSigner := true, IsWritable := true },
          { PublicKey := env.TokenProgramID, IsSigner := false, IsWritable := false } ] ∧
      i.Accounts.length = 7 ∧
      i.Accounts.filter (fun m => m.IsSigner) =
        [ { PublicKey := inst.Wallet, IsSigner := true, IsWritable := true } ] := by
  refine ⟨_, rfl, rfl, rfl, ?_⟩
  simp [AssociatedTokenAccount.Instruction.Accounts,
    AssociatedTokenAccount.InstructionImpl.GetAccounts]

/-- C3: `CreateIdempotent.Build` returns an instruction with exactly these 7 account
metas, in this order: payer (signer, writable), the supplied associated token address
(writable), wallet, mint, system program, the supplied program id, rent sysvar; the payer
entry is the only one with the signer flag, and entry 1 is the supplied address for every
wallet and mint. -/
theorem C3_CreateIdempotent_Build_accounts (env : AssociatedTokenAccount.Env)
    (payer associatedToken wallet mint programID : PublicKey)
    (accounts : List AssociatedTokenAccount.AccountMeta) :
    ∃ i, AssociatedTokenAccount.CreateIdempotent.Build env
          { Create := { Payer := payer, Wallet := wallet, Mint := mint,
                        AccountMetaSlice := accounts },
            associatedToken := associatedToken, programID := programID } = some i ∧
      i.Accounts =
        [ { PublicKey := payer, IsSigner := true, IsWritable := true },
          { PublicKey := associatedToken, IsSigner := false, IsWritable := true },
          { PublicKey := wallet, IsSigner := false, IsWritable := false },
          { PublicKey := mint, IsSigner := false, IsWritable := false },
          { PublicKey := env.SystemProgramID, IsSigner := false, IsWritable := false },
          { PublicKey := programID, IsSigner := false, IsWritable := false },
          { PublicKey := env.SysVarRentPubkey, IsSigner := false, IsWritable := false } ] ∧
      i.Accounts.length = 7 ∧
      i.Accounts.filter (fun m => m.IsSigner) =
        [ { PublicKey := payer, IsSigner := true, IsWritable := true } ] ∧
      i.addressAt 1 = associatedToken := by
  refine ⟨_, rfl, rfl, rfl, ?_, rfl⟩
  simp [AssociatedTokenAccount.Instruction.Accounts,
    AssociatedTokenAccount.InstructionImpl.GetAccounts]

/-! ### Validation of `RecoverNested` -/

/-- The method `IsZero` holds exactly of the zero address. -/
theorem PublicKey.IsZero_iff (p : PublicKey) : p.IsZero = true ↔ p = zeroPublicKey := by
  simp [PublicKey.IsZero]

/-- The result of `Validate` once the three zero checks have passed. -/
theorem AssociatedTokenAccount.Validate_of_set (env : AssociatedTokenAccount.Env)
    (inst : AssociatedTokenAccount.RecoverNested)
    (hw : inst.Wallet ≠ zeroPublicKey) (ho : inst.OwnerMint ≠ zeroPublicKey)
    (hn : inst.NestedMint ≠ zeroPublicKey) :
    inst.Validate env =
      match env.deriveErr inst.Wallet inst.OwnerMint with
      | some err => some (Error.errorf "error while FindAssociatedTokenAddress: %w" err)
      | none =>
        match env.deriveErr inst.Wallet inst.NestedMint with
        | some err => some (Error.errorf "error while FindAssociatedTokenAddress: %w" err)
        | none =>
          match env.deriveErr (env.derive inst.Wallet inst.OwnerMint) inst.NestedMint with
          | some err => some (Error.errorf "error while FindAssociatedTokenAddress: %w" err)
          | none => none := by
  simp [AssociatedTokenAccount.RecoverNested.Validate, PublicKey.IsZero, hw, ho, hn,
    AssociatedTokenAccount.Env.deriveErr, AssociatedTokenAccount.Env.derive]

/-- C4: `RecoverNested.Validate` returns an error exactly when one of Wallet, OwnerMint,
NestedMint is the zero address or one of the three derivations fails. A zero field gives
the missing-field error of the first zero field in the order Wallet, OwnerMint,
NestedMint; a failing derivation gives an error wrapping the derivation's error;
otherwise the result is nil. -/
theorem C4_RecoverNested_Validate (env : AssociatedTokenAccount.Env)
    (inst : AssociatedTokenAccount.RecoverNested) :
    (inst.Validate env ≠ none ↔
      (inst.Wallet = zeroPublicKey ∨ inst.OwnerMint = zeroPublicKey ∨
        inst.NestedMint = zeroPublicKey ∨
        env.deriveErr inst.Wallet inst.OwnerMint ≠ none ∨
        env.deriveErr inst.Wallet inst.NestedMint ≠ none ∨
        env.deriveErr (env.derive inst.Wallet inst.OwnerMint) inst.NestedMint ≠ none)) ∧
    (inst.Wallet = zeroPublicKey → inst.Validate env = some (Error.new "Wallet not set")) ∧
    (inst.Wallet ≠ zeroPublicKey → inst.OwnerMint = zeroPublicKey →
      inst.Validate env = some (Error.new "OwnerMint not set")) ∧
    (inst.Wallet ≠ zeroPublicKey → inst.OwnerMint ≠ zeroPublicKey →
      inst.NestedMint = zeroPublicKey →
      inst.Validate env = some (Error.new "NestedMint not set")) ∧
    (inst.Wallet ≠ zeroPublicKey → inst.OwnerMint ≠ zeroPublicKey →
      inst.NestedMint ≠ zeroPublicKey →
      (∀ e, env.deriveErr inst.Wallet inst.OwnerMint = some e →
        inst.Validate env =
          some (Error.errorf "error while FindAssociatedTokenAddress: %w" e)) ∧
      (env.deriveErr inst.Wallet inst.OwnerMint = none →
        ∀ e, env.deriveErr inst.Wallet inst.NestedMint = some e →
        inst.Validate env =
          some (Error.errorf "error while FindAssociatedTokenAddress: %w" e)) ∧
      (env.deriveErr inst.Wallet inst.OwnerMint = none →
        env.deriveErr inst.Wallet inst.NestedMint = none →
        ∀ e, env.deriveErr (env.derive inst.Wallet inst.OwnerMint) inst.NestedMint = some e →
        inst.Validate env =
          some (Error.errorf "error while FindAssociatedTokenAddress: %w" e)) ∧
      (env.deriveErr inst.Wallet inst.OwnerMint = none →
        env.deriveErr inst.Wallet inst.NestedMint = none →
        env.deriveErr (env.derive inst.Wallet inst.OwnerMint) inst.NestedMint = none →
        inst.Validate env = none)) := by
  by_cases hw : inst.Wallet = zeroPublicKey
  · simp [AssociatedTokenAccount.RecoverNested.Validate, PublicKey.IsZero, hw]
  by_cases ho : inst.OwnerMint = zeroPublicKey
  · simp [AssociatedTokenAccount.RecoverNested.Validate, PublicKey.IsZero, hw, ho]
  by_cases hn : inst.NestedMint = zeroPublicKey
  · simp [AssociatedTokenAccount.RecoverNested.Validate, PublicKey.IsZero, hw, ho, hn]
  rw [AssociatedTokenAccount.Validate_of_set env inst hw ho hn]
  simp only [hw, ho, hn, false_or, not_false_eq_true, true_implies, false_implies, true_and,
    and_true, not_true_eq_false]
  cases h1 : env.deriveErr inst.Wallet inst.OwnerMint <;>
    cases h2 : env.deriveErr inst.Wallet inst.NestedMint <;>
    cases h3 : env.deriveErr (env.derive inst.Wallet inst.OwnerMint) inst.NestedMint <;>
    simp

/-- The account addresses of the instruction that `RecoverNested.Build` returns. -/
theorem AssociatedTokenAccount.Build_addresses (env : AssociatedTokenAccount.Env)
    (inst : AssociatedTokenAccount.RecoverNested) :
    ∃ i, inst.Build env = some i ∧ i.Accounts.length = 7 ∧
      i.addressAt 0 = env.derive (env.derive inst.Wallet inst.OwnerMint) inst.NestedMint ∧
      i.addressAt 1 = inst.NestedMint ∧
      i.addressAt 2 = env.derive inst.Wallet inst.NestedMint ∧
      i.addressAt 3 = env.derive inst.Wallet inst.OwnerMint ∧
      i.addressAt 4 = inst.OwnerMint ∧
      i.addressAt 5 = inst.Wallet :=
  ⟨_, rfl, rfl, rfl, rfl, rfl, rfl, rfl, rfl⟩

/-- The result of `ValidateAndBuild` when `Validate` returns nil. -/
theorem AssociatedTokenAccount.ValidateAndBuild_of_valid (env : AssociatedTokenAccount.Env)
    (inst : AssociatedTokenAccount.RecoverNested) (h : inst.Validate env = none) :
    inst.ValidateAndBuild env = (inst.Build env, none) := by
  simp [AssociatedTokenAccount.RecoverNested.ValidateAndBuild, h]

/-- The result of `ValidateAndBuild` when `Validate` returns an error. -/
theorem AssociatedTokenAccount.ValidateAndBuild_of_invalid (env : AssociatedTokenAccount.Env)
    (inst : AssociatedTokenAccount.RecoverNested) (e : Error) (h : inst.Validate env = some e) :
    inst.ValidateAndBuild env = (none, some e) := by
  simp [AssociatedTokenAccount.RecoverNested.ValidateAndBuild, h]

/-- C5: when Wallet, OwnerMint or NestedMint is the zero address, `ValidateAndBuild`
returns one of the three missing-field errors and no instruction, and the result is the
same for every environment, hence for every derivation function. -/
theorem C5_ValidateAndBuild_zero_field (env : AssociatedTokenAccount.Env)
    (inst : AssociatedTokenAccount.RecoverNested)
    (h : inst.Wallet = zeroPublicKey ∨ inst.OwnerMint = zeroPublicKey ∨
      inst.NestedMint = zeroPublicKey) :
    (∃ e ∈ [Error.new "Wallet not set", Error.new "OwnerMint not set",
              Error.new "NestedMint not set"],
      inst.ValidateAndBuild env = (none, some e)) ∧
    ∀ env2 : AssociatedTokenAccount.Env,
      inst.ValidateAndBuild env2 = inst.ValidateAndBuild env := by
  by_cases hw : inst.Wallet = zeroPublicKey
  · simp [AssociatedTokenAccount.RecoverNested.ValidateAndBuild,
      AssociatedTokenAccount.RecoverNested.Validate, PublicKey.IsZero, hw]
  by_cases ho : inst.OwnerMint = zeroPublicKey
  · simp [AssociatedTokenAccount.RecoverNested.ValidateAndBuild,
      AssociatedTokenAccount.RecoverNested.Validate, PublicKey.IsZero, hw, ho]
  have hn : inst.NestedMint = zeroPublicKey := by tauto
  simp [AssociatedTokenAccount.RecoverNested.ValidateAndBuild,
    AssociatedTokenAccount.RecoverNested.Validate, PublicKey.IsZero, hw, ho, hn]

/-- C5 at the freshly constructed builder, with a derivation that always fails. -/
theorem C5_ValidateAndBuild_zero_field_witness :
    (AssociatedTokenAccount.NewRecoverNestedInstructionBuilder.Wallet = zeroPublicKey ∨
      AssociatedTokenAccount.NewRecoverNestedInstructionBuilder.OwnerMint = zeroPublicKey ∨
      AssociatedTokenAccount.NewRecoverNestedInstructionBuilder.NestedMint = zeroPublicKey) ∧
    ((∃ e ∈ [Error.new "Wallet not set", Error.new "OwnerMint not set",
              Error.new "NestedMint not set"],
      AssociatedTokenAccount.NewRecoverNestedInstructionBuilder.ValidateAndBuild
        AssociatedTokenAccount.failingEnv = (none, some e)) ∧
    ∀ env2 : AssociatedTokenAccount.Env,
      AssociatedTokenAccount.NewRecoverNestedInstructionBuilder.ValidateAndBuild env2 =
        AssociatedTokenAccount.NewRecoverNestedInstructionBuilder.ValidateAndBuild
          AssociatedTokenAccount.failingEnv) :=
  ⟨Or.inl rfl,
    C5_ValidateAndBuild_zero_field AssociatedTokenAccount.failingEnv
      AssociatedTokenAccount.NewRecoverNestedInstructionBuilder (Or.inl rfl)⟩

/-- C6: in the account list of `RecoverNested.Build`, the address at position 0 is
derive(position 3, position 1), the address at position 2 is derive(position 5,
position 1) and the address at position 3 is derive(position 5, position 4); so the
nested associated address is derive(derive(wallet, ownerMint), nestedMint). -/
theorem C6_RecoverNested_Build_consistent (env : AssociatedTokenAccount.Env)
    (inst : AssociatedTokenAccount.RecoverNested) :
    ∃ i, inst.Build env = some i ∧
      i.addressAt 0 = env.derive (i.addressAt 3) (i.addressAt 1) ∧
      i.addressAt 2 = env.derive (i.addressAt 5) (i.addressAt 1) ∧
      i.addressAt 3 = env.derive (i.addressAt 5) (i.addressAt 4) ∧
      i.addressAt 0 = env.derive (env.derive inst.Wallet inst.OwnerMint) inst.NestedMint :=
  ⟨_, rfl, rfl, rfl, rfl, rfl⟩

/-! ### The payload of the signature-verification instruction -/

/-- The four 16-bit fields of the header that carry offsets and the length. -/
theorem Uint16At_header (n : Nat) (rest : List Byte) :
    Uint16At ([1, 0, 48, 0, 255, 255, 16, 0, 255, 255, 112, 0,
          toByte (n % 65536), toByte (n % 65536 / 256), 255, 255] ++ rest) 2 = 48 ∧
    Uint16At ([1, 0, 48, 0, 255, 255, 16, 0, 255, 255, 112, 0,
          toByte (n % 65536), toByte (n % 65536 / 256), 255, 255] ++ rest) 6 = 16 ∧
    Uint16At ([1, 0, 48, 0, 255, 255, 16, 0, 255, 255, 112, 0,
          toByte (n % 65536), toByte (n % 65536 / 256), 255, 255] ++ rest) 10 = 112 ∧
    Uint16At ([1, 0, 48, 0, 255, 255, 16, 0, 255, 255, 112, 0,
          toByte (n % 65536), toByte (n % 65536 / 256), 255, 255] ++ rest) 12 = n % 65536 := by
  refine ⟨by simp [Uint16At]; rfl, by simp [Uint16At]; rfl, by simp [Uint16At]; rfl, ?_⟩
  simp [Uint16At, toByte]
  omega

/-- The three parts that follow a 16-byte header, read back by offset. -/
theorem sliceAt_parts (h a b c : List Byte) (hh : h.length = 16) (ha : a.length = 32)
    (hb : b.length = 64) :
    sliceAt (h ++ a ++ b ++ c) 16 32 = a ∧ sliceAt (h ++ a ++ b ++ c) 48 64 = b ∧
    sliceAt (h ++ a ++ b ++ c) 112 c.length = c := by
  refine ⟨?_, ?_, ?_⟩
  · rw [sliceAt, List.append_assoc, List.append_assoc, ← hh, List.drop_left, ← ha,
      List.take_left]
  · have : (h ++ a).length = 48 := by simp [hh, ha]
    rw [sliceAt, List.append_assoc, ← this, List.drop_left, ← hb, List.take_left]
  · have : (h ++ a ++ b).length = 112 := by simp [hh, ha, hb]
    rw [sliceAt, ← this, List.drop_left, List.take_length]

/-- The offsets and the length that `Data()` stores in its header. -/
theorem Ed25519SigVerify.Data_header (inst : Ed25519SigVerify.Instruction) :
    Uint16At inst.Data.1 2 = 48 ∧ Uint16At inst.Data.1 6 = 16 ∧
    Uint16At inst.Data.1 10 = 112 ∧
    Uint16At inst.Data.1 12 = inst.Message.length % 65536 := by
  rw [Ed25519SigVerify.Data_eq]
  simp only [List.append_assoc]
  exact Uint16At_header _ _

/-- The length of `Data()`. -/
theorem Ed25519SigVerify.Data_length (inst : Ed25519SigVerify.Instruction) :
    inst.Data.1.length = 112 + inst.Message.length := by
  rw [Ed25519SigVerify.Data_eq]
  simp [inst.Signer.property, inst.Signature.property]
  omega

/-- C7: for a message shorter than 65536 bytes, reading `Data()` back by the offsets of
its own header gives the signer (32 bytes at the uint16 of offset 6), the signature
(64 bytes at the uint16 of offset 2) and the message (at the uint16 of offset 10, of the
length stored at offset 12), and the message runs exactly to the end of the data. -/
theorem C7_Data_roundtrip (signer : PublicKey) (sig : Signature) (msg : List Byte)
    (hlen : msg.length < 65536) :
    sliceAt (Ed25519SigVerify.Instruction.Data ⟨signer, sig, msg⟩).1
        (Uint16At (Ed25519SigVerify.Instruction.Data ⟨signer, sig, msg⟩).1 6) 32 = signer.val ∧
    sliceAt (Ed25519SigVerify.Instruction.Data ⟨signer, sig, msg⟩).1
        (Uint16At (Ed25519SigVerify.Instruction.Data ⟨signer, sig, msg⟩).1 2) 64 = sig.val ∧
    sliceAt (Ed25519SigVerify.Instruction.Data ⟨signer, sig, msg⟩).1
        (Uint16At (Ed25519SigVerify.Instruction.Data ⟨signer, sig, msg⟩).1 10)
        (Uint16At (Ed25519SigVerify.Instruction.Data ⟨signer, sig, msg⟩).1 12) = msg ∧
    Uint16At (Ed25519SigVerify.Instruction.Data ⟨signer, sig, msg⟩).1 10 +
        Uint16At (Ed25519SigVerify.Instruction.Data ⟨signer, sig, msg⟩).1 12 =
      (Ed25519SigVerify.Instruction.Data ⟨signer, sig, msg⟩).1.length := by
  obtain ⟨h2, h6, h10, h12⟩ := Ed25519SigVerify.Data_header ⟨signer, sig, msg⟩
  rw [h2, h6, h10, h12, Ed25519SigVerify.Data_length]
  simp only [Nat.mod_eq_of_lt hlen, and_true]
  rw [Ed25519SigVerify.Data_eq]
  exact sliceAt_parts _ _ _ _ rfl signer.property sig.property

/-- C7 at the sample of the spec: 114 bytes, offsets 48, 16, 112 and length 2. -/
theorem C7_Data_roundtrip_witness :
    Ed25519SigVerify.sampleInstruction.Message.length < 65536 ∧
    Ed25519SigVerify.sampleInstruction.Data.1.length = 114 ∧
    Uint16At Ed25519SigVerify.sampleInstruction.Data.1 2 = 48 ∧
    Uint16At Ed25519SigVerify.sampleInstruction.Data.1 6 = 16 ∧
    Uint16At Ed25519SigVerify.sampleInstruction.Data.1 10 = 112 ∧
    Uint16At Ed25519SigVerify.sampleInstruction.Data.1 12 = 2 ∧
    sliceAt Ed25519SigVerify.sampleInstruction.Data.1 16 32 = List.replicate 32 0x11 ∧
    sliceAt Ed25519SigVerify.sampleInstruction.Data.1 48 64 = List.replicate 64 0x22 ∧
    sliceAt Ed25519SigVerify.sampleInstruction.Data.1 112 2 = [0x68, 0x69] ∧
    (sliceAt Ed25519SigVerify.sampleInstruction.Data.1
        (Uint16At Ed25519SigVerify.sampleInstruction.Data.1 6) 32 =
        Ed25519SigVerify.sampleInstruction.Signer.val ∧
      sliceAt Ed25519SigVerify.sampleInstruction.Data.1
        (Uint16At Ed25519SigVerify.sampleInstruction.Data.1 2) 64 =
        Ed25519SigVerify.sampleInstruction.Signature.val ∧
      sliceAt Ed25519SigVerify.sampleInstruction.Data.1
        (Uint16At Ed25519SigVerify.sampleInstruction.Data.1 10)
        (Uint16At Ed25519SigVerify.sampleInstruction.Data.1 12) =
        Ed25519SigVerify.sampleInstruction.Message ∧
      Uint16At Ed25519SigVerify.sampleInstruction.Data.1 10 +
        Uint16At Ed25519SigVerify.sampleInstruction.Data.1 12 =
        Ed25519SigVerify.sampleInstruction.Data.1.length) :=
  ⟨by decide, by decide, by decide, by decide, by decide, by decide, by decide, by decide,
    by decide,
    C7_Data_roundtrip Ed25519SigVerify.sampleInstruction.Signer
      Ed25519SigVerify.sampleInstruction.Signature
      Ed25519SigVerify.sampleInstruction.Message (by decide)⟩

/-- C8, as stated, fails: for the message of 65536 zero bytes the uint16 at bytes 12–13
of `Data()` is 0, not the length of the message. -/
theorem C8_length_field_counterexample :
    Ed25519SigVerify.longInstruction.Message.length = 65536 ∧
    Uint16At Ed25519SigVerify.longInstruction.Data.1 12 = 0 ∧
    Uint16At Ed25519SigVerify.longInstruction.Data.1 12 ≠
      Ed25519SigVerify.longInstruction.Message.length := by
  have h : Ed25519SigVerify.longInstruction.Message.length = 65536 :=
    List.length_replicate 65536 (0 : Byte)
  rw [(Ed25519SigVerify.Data_header Ed25519SigVerify.longInstruction).2.2.2, h]
  decide

/-- C8, amended: for a message of any length, the uint16 at bytes 12–13 of `Data()` is
the length of the message modulo 65536; it is the length itself exactly when the message
is shorter than 65536 bytes. -/
theorem C8_length_field_mod (signer : PublicKey) (sig : Signature) (msg : List Byte) :
    Uint16At (Ed25519SigVerify.Instruction.Data ⟨signer, sig, msg⟩).1 12 =
      msg.length % 65536 ∧
    (Uint16At (Ed25519SigVerify.Instruction.Data ⟨signer, sig, msg⟩).1 12 = msg.length ↔
      msg.length < 65536) := by
  rw [(Ed25519SigVerify.Data_header ⟨signer, sig, msg⟩).2.2.2]
  refine ⟨rfl, ?_⟩
  show msg.length % 65536 = msg.length ↔ msg.length < 65536
  omega

/-! ### Complete instruction or error -/

/-- The instruction of `Build` is complete exactly when its three derivations succeed. -/
theorem AssociatedTokenAccount.Build_complete_iff (env : AssociatedTokenAccount.Env)
    (inst : AssociatedTokenAccount.RecoverNested) :
    ∃ i, inst.Build env = some i ∧ i.Accounts.length = 7 ∧
      (i.Complete env ↔ inst.derivationsSucceed env) := by
  refine ⟨_, rfl, rfl, ?_⟩
  unfold AssociatedTokenAccount.Instruction.Complete
    AssociatedTokenAccount.RecoverNested.derivationsSucceed
  constructor
  · rintro ⟨_, ⟨_, h1⟩, ⟨_, h2⟩, ⟨_, h3⟩⟩
    exact ⟨h1, h2, h3⟩
  · rintro ⟨h1, h2, h3⟩
    exact ⟨rfl, ⟨rfl, h1⟩, ⟨rfl, h2⟩, ⟨rfl, h3⟩⟩

/-- When `Validate` returns nil, the three derivations of `Build` succeed. -/
theorem AssociatedTokenAccount.derivationsSucceed_of_valid (env : AssociatedTokenAccount.Env)
    (inst : AssociatedTokenAccount.RecoverNested) (h : inst.Validate env = none) :
    inst.derivationsSucceed env := by
  by_cases hw : inst.Wallet = zeroPublicKey
  · simp [AssociatedTokenAccount.RecoverNested.Validate, PublicKey.IsZero, hw] at h
  by_cases ho : inst.OwnerMint = zeroPublicKey
  · simp [AssociatedTokenAccount.RecoverNested.Validate, PublicKey.IsZero, hw, ho] at h
  by_cases hn : inst.NestedMint = zeroPublicKey
  · simp [AssociatedTokenAccount.RecoverNested.Validate, PublicKey.IsZero, hw, ho, hn] at h
  rw [AssociatedTokenAccount.Validate_of_set env inst hw ho hn] at h
  unfold AssociatedTokenAccount.RecoverNested.derivationsSucceed
  cases h1 : env.deriveErr inst.Wallet inst.OwnerMint <;>
    cases h2 : env.deriveErr inst.Wallet inst.NestedMint <;>
    cases h3 : env.deriveErr (env.derive inst.Wallet inst.OwnerMint) inst.NestedMint <;>
    simp [h1, h2, h3] at h ⊢

/-- C9, as stated, fails for `Build`: with a derivation that fails, `Build` on a builder
with all three fields set still returns an instruction, whose address at position 3 is
the zero address left by the failed derivation; it is neither a complete instruction nor
"an error and no instruction". -/
theorem C9_Build_counterexample :
    AssociatedTokenAccount.failingEnv.deriveErr AssociatedTokenAccount.sampleRecoverNested.Wallet
        AssociatedTokenAccount.sampleRecoverNested.OwnerMint =
      some (Error.new "unable to find a valid program address") ∧
    (∃ i, AssociatedTokenAccount.sampleRecoverNested.Build AssociatedTokenAccount.failingEnv =
        some i ∧ i.addressAt 3 = zeroPublicKey) ∧
    ¬ ((∃ i, AssociatedTokenAccount.sampleRecoverNested.Build AssociatedTokenAccount.failingEnv =
          some i ∧ i.Complete AssociatedTokenAccount.failingEnv) ∨
        AssociatedTokenAccount.sampleRecoverNested.Build AssociatedTokenAccount.failingEnv =
          none) := by
  refine ⟨rfl, ⟨_, rfl, rfl⟩, ?_⟩
  rintro (⟨i, hi, hc⟩ | hnone)
  · have h3 := hc.2.1.2
    simp [AssociatedTokenAccount.Env.deriveErr, AssociatedTokenAccount.failingEnv,
      AssociatedTokenAccount.failingDerive] at h3
  · simp [AssociatedTokenAccount.RecoverNested.Build] at hnone

/-- C9, amended: `ValidateAndBuild` returns either a complete instruction and no error, or
an error and no instruction. `Build` has no error result and always returns an
instruction with 7 accounts, which is complete exactly when its three derivations
succeed. -/
theorem C9_complete_or_error (env : AssociatedTokenAccount.Env)
    (inst : AssociatedTokenAccount.RecoverNested) :
    ((∃ i, inst.ValidateAndBuild env = (some i, none) ∧ i.Complete env) ∨
      (∃ e, inst.ValidateAndBuild env = (none, some e))) ∧
    (∃ i, inst.Build env = some i ∧ i.Accounts.length = 7 ∧
      (i.Complete env ↔ inst.derivationsSucceed env)) := by
  refine ⟨?_, AssociatedTokenAccount.Build_complete_iff env inst⟩
  cases hv : inst.Validate env with
  | some e => exact Or.inr ⟨e, AssociatedTokenAccount.ValidateAndBuild_of_invalid env inst e hv⟩
  | none =>
    obtain ⟨i, hb, _, hc⟩ := AssociatedTokenAccount.Build_complete_iff env inst
    refine Or.inl ⟨i, ?_, hc.mpr (AssociatedTokenAccount.derivationsSucceed_of_valid env inst hv)⟩
    rw [AssociatedTokenAccount.ValidateAndBuild_of_valid env inst hv, hb]

/-! ### The idempotent create instruction -/

/-- C10: `CreateIdempotent.Build` returns an instruction for every builder state, the
freshly constructed builder included: its variant id is the CreateIdempotent discriminant,
it has 7 accounts, and its data is the discriminant byte alone, with no error. -/
theorem C10_CreateIdempotent_Build_total (env : AssociatedTokenAccount.Env)
    (writeLength : Nat → List Byte) :
    (∀ inst : AssociatedTokenAccount.CreateIdempotent,
      ∃ i, inst.Build env = some i ∧
        i.BaseVariant.TypeID =
          AssociatedTokenAccount.TypeIDFromUint8 env.Instruction_CreateIdempotent ∧
        i.BaseVariant.TypeID.Uint8 = env.Instruction_CreateIdempotent ∧
        i.Accounts.length = 7 ∧
        i.Data writeLength = ([env.Instruction_CreateIdempotent], none)) ∧
    (∃ i, AssociatedTokenAccount.NewCreateIdempotentInstructionBuilder.Build env = some i ∧
        i.BaseVariant.TypeID.Uint8 = env.Instruction_CreateIdempotent ∧
        i.Accounts.length = 7 ∧
        i.Data writeLength = ([env.Instruction_CreateIdempotent], none)) :=
  ⟨fun _ => ⟨_, rfl, rfl, rfl, rfl, rfl⟩, ⟨_, rfl, rfl, rfl, rfl⟩⟩

/-! ### Address derivation -/

/-- The search below `k` either fails, and then every bump below `k` is on the curve, or
returns the largest bump below `k` whose hash result is off the curve. -/
theorem Derivation.findBump_spec (P : Derivation.Params) (owner seed : PublicKey) (k : Nat) :
    (Derivation.findBump P owner seed k = (zeroPublicKey, 0, some Derivation.NoValidAddressFound) ∧
      ∀ n, n < k → P.onCurve (P.hashResult owner seed (toByte n)) = true) ∨
    ∃ n, n < k ∧
      Derivation.findBump P owner seed k = (P.hashResult owner seed (toByte n), toByte n, none) ∧
      P.onCurve (P.hashResult owner seed (toByte n)) = false ∧
      ∀ m, n < m → m < k → P.onCurve (P.hashResult owner seed (toByte m)) = true := by
  induction k with
  | zero => exact Or.inl ⟨rfl, fun n hn => absurd hn (Nat.not_lt_zero n)⟩
  | succ k ih =>
    by_cases hk : P.onCurve (P.hashResult owner seed (toByte k)) = true
    · have hstep : Derivation.findBump P owner seed (k + 1) = Derivation.findBump P owner seed k := by
        simp [Derivation.findBump, hk]
      rw [hstep]
      rcases ih with ⟨hfail, hall⟩ | ⟨n, hn, hres, hoff, hall⟩
      · refine Or.inl ⟨hfail, fun n hn => ?_⟩
        rcases Nat.lt_succ_iff_lt_or_eq.mp hn with h | h
        · exact hall n h
        · rw [h]; exact hk
      · refine Or.inr ⟨n, Nat.lt_succ_of_lt hn, hres, hoff, fun m hnm hm => ?_⟩
        rcases Nat.lt_succ_iff_lt_or_eq.mp hm with h | h
        · exact hall m hnm h
        · rw [h]; exact hk
    · have hk2 : P.onCurve (P.hashResult owner seed (toByte k)) = false := by
        simpa using hk
      refine Or.inr ⟨k, Nat.lt_succ_self k, ?_, hk2, fun m hkm hm => ?_⟩
      · simp [Derivation.findBump, hk2]
      · omega

/-- A byte is the byte of its value. -/
theorem toByte_val (b : Byte) : toByte b.val = b := by
  apply Fin.ext
  simp [toByte, Nat.mod_eq_of_lt b.isLt]

/-! ### The empty parameter payload of `RecoverNested` -/

/-- C11: the parameter payload of `RecoverNested` is empty. `MarshalWithEncoder` leaves
the encoder's output as it was and returns no error, `UnmarshalWithDecoder` leaves the
decoder, its read position included, and the builder as they were and returns no error,
and the instruction of `Build` has the RecoverNested discriminant as its variant id, so
its data is that one byte. -/
theorem C11_RecoverNested_empty_payload (env : AssociatedTokenAccount.Env)
    (inst : AssociatedTokenAccount.RecoverNested) (encoder : AssociatedTokenAccount.Encoder)
    (decoder : AssociatedTokenAccount.Decoder) (writeLength : Nat → List Byte) :
    inst.MarshalWithEncoder encoder = (encoder, none) ∧
    (inst.MarshalWithEncoder encoder).1.out = encoder.out ++ [] ∧
    inst.UnmarshalWithDecoder decoder = (inst, decoder, none) ∧
    (inst.UnmarshalWithDecoder decoder).2.1.pos = decoder.pos ∧
    ∃ i, inst.Build env = some i ∧
      i.BaseVariant.TypeID =
        AssociatedTokenAccount.TypeIDFromUint8 env.Instruction_RecoverNested ∧
      i.BaseVariant.TypeID.Uint8 = env.Instruction_RecoverNested ∧
      i.BaseVariant.Impl.MarshalWithEncoder encoder = (encoder, none) ∧
      i.Data writeLength = ([env.Instruction_RecoverNested], none) := by
  refine ⟨rfl, ?_, rfl, rfl, _, rfl, rfl, rfl, rfl, rfl⟩
  simp [AssociatedTokenAccount.RecoverNested.MarshalWithEncoder,
    AssociatedTokenAccount.Encoder.WriteBytes]

/-! ### Constructors and metadata of the signature-verification instruction -/

/-- C12: `NewEd25519SigVerifyInstructionWithWallet` returns an error and no instruction
exactly when the wallet's signing of the message fails, and the error is the signing
error; otherwise it returns the instruction with the wallet's public key, the signature
that signing produced and the message. `NewEd25519SigVerifyInstruction` always returns
the instruction holding its three arguments. -/
theorem C12_constructors (w : Wallet) (signer : PublicKey) (sig : Signature)
    (msg : List Byte) :
    ((Ed25519SigVerify.NewEd25519SigVerifyInstructionWithWallet w msg).2 ≠ none ↔
      (w.Sign msg).2 ≠ none) ∧
    ((Ed25519SigVerify.NewEd25519SigVerifyInstructionWithWallet w msg).1 = none ↔
      (w.Sign msg).2 ≠ none) ∧
    (∀ e, (w.Sign msg).2 = some e →
      Ed25519SigVerify.NewEd25519SigVerifyInstructionWithWallet w msg = (none, some e)) ∧
    ((w.Sign msg).2 = none →
      Ed25519SigVerify.NewEd25519SigVerifyInstructionWithWallet w msg =
        (some { Signer := w.PublicKey, Signature := (w.Sign msg).1, Message := msg }, none)) ∧
    Ed25519SigVerify.NewEd25519SigVerifyInstruction signer sig msg =
      some { Signer := signer, Signature := sig, Message := msg } := by
  unfold Ed25519SigVerify.NewEd25519SigVerifyInstructionWithWallet
  rcases hs : w.Sign msg with ⟨sg, _ | e⟩
  · simp [Ed25519SigVerify.NewEd25519SigVerifyInstruction]
  · simp [Ed25519SigVerify.NewEd25519SigVerifyInstruction]

/-- C13: for every instruction, `Accounts()` is the empty list and `ProgramID()` is the
Ed25519 signature-verification program identifier of the `solana` package. -/
theorem C13_no_accounts (Ed25519ProgramID : PublicKey) (signer : PublicKey) (sig : Signature)
    (msg : List Byte) :
    Ed25519SigVerify.Instruction.Accounts ⟨signer, sig, msg⟩ = [] ∧
    Ed25519SigVerify.Instruction.ProgramID Ed25519ProgramID ⟨signer, sig, msg⟩ =
      Ed25519ProgramID :=
  ⟨rfl, rfl⟩

/-- The derivation either fails with every bump on the curve, or returns the largest bump
whose hash result is off the curve. -/
theorem Derivation.FindAssociatedTokenAddress_spec (P : Derivation.Params)
    (owner seed : PublicKey) :
    (Derivation.FindAssociatedTokenAddress P owner seed =
        (zeroPublicKey, 0, some Derivation.NoValidAddressFound) ∧
      ∀ b : Byte, P.onCurve (P.hashResult owner seed b) = true) ∨
    ∃ b : Byte,
      Derivation.FindAssociatedTokenAddress P owner seed = (P.hashResult owner seed b, b, none) ∧
      P.onCurve (P.hashResult owner seed b) = false ∧
      ∀ c : Byte, b < c → P.onCurve (P.hashResult owner seed c) = true := by
  rcases Derivation.findBump_spec P owner seed 256 with ⟨hfail, hall⟩ | ⟨n, hn, hres, hoff, hall⟩
  · refine Or.inl ⟨hfail, fun b => ?_⟩
    have := hall b.val b.isLt
    rwa [toByte_val] at this
  · refine Or.inr ⟨toByte n, hres, hoff, fun c hc => ?_⟩
    have hlt : n < c.val := by
      have : (toByte n).val < c.val := hc
      simpa [toByte, Nat.mod_eq_of_lt hn] using this
    have := hall c.val hlt c.isLt
    rwa [toByte_val] at this

/-- C14: the derivation tries the bumps downward from 255 and returns the address and the
bump of the largest bump in [0,255] whose hash result is off the signing curve, so a
derived address is never a valid key-pair address; it fails, with the no-valid-address
error, exactly when no bump in [0,255] gives an off-curve result. -/
theorem C14_derivation (P : Derivation.Params) (owner seed : PublicKey) :
    (∀ b : Byte, P.onCurve (P.hashResult owner seed b) = false →
      (∀ c : Byte, b < c → P.onCurve (P.hashResult owner seed c) = true) →
      Derivation.FindAssociatedTokenAddress P owner seed =
        (P.hashResult owner seed b, b, none)) ∧
    ((Derivation.FindAssociatedTokenAddress P owner seed).2.2 = none →
      P.onCurve (Derivation.FindAssociatedTokenAddress P owner seed).1 = false ∧
      (Derivation.FindAssociatedTokenAddress P owner seed).1 =
        P.hashResult owner seed (Derivation.FindAssociatedTokenAddress P owner seed).2.1 ∧
      ∀ c : Byte, (Derivation.FindAssociatedTokenAddress P owner seed).2.1 < c →
        P.onCurve (P.hashResult owner seed c) = true) ∧
    ((Derivation.FindAssociatedTokenAddress P owner seed).2.2 ≠ none ↔
      ∀ b : Byte, P.onCurve (P.hashResult owner seed b) = true) ∧
    ((Derivation.FindAssociatedTokenAddress P owner seed).2.2 ≠ none →
      (Derivation.FindAssociatedTokenAddress P owner seed).2.2 =
        some Derivation.NoValidAddressFound) := by
  rcases Derivation.FindAssociatedTokenAddress_spec P owner seed with
    ⟨hfail, hall⟩ | ⟨b, hres, hoff, hall⟩
  · refine ⟨fun b hb _ => ?_, fun h => ?_, ⟨fun _ => hall, fun _ => ?_⟩, fun _ => ?_⟩
    · rw [hall b] at hb; exact absurd hb (by decide)
    · rw [hfail] at h; exact absurd h (by simp)
    · rw [hfail]; simp
    · rw [hfail]
  · refine ⟨fun b2 hb2 hall2 => ?_, fun _ => ?_, ⟨fun h => ?_, fun h => ?_⟩, fun h => ?_⟩
    · have hbb : b2 = b := by
        rcases lt_trichotomy b2 b with h | h | h
        · rw [hall2 b h] at hoff; exact absurd hoff (by decide)
        · exact h
        · rw [hall b2 h] at hb2; exact absurd hb2 (by decide)
      rw [hbb]; exact hres
    · rw [hres]; exact ⟨hoff, rfl, hall⟩
    · rw [hres] at h; exact absurd rfl h
    · rw [h b] at hoff; exact absurd hoff (by decide)
    · rw [hres] at h; exact absurd rfl h

/-- The sample derivation skips the bumps 255 to 201, which are on the sample curve, and
stops at bump 200. -/
theorem Derivation.sample_derivation :
    (Derivation.FindAssociatedTokenAddress Derivation.sampleParams
        AssociatedTokenAccount.sampleRecoverNested.Wallet
        AssociatedTokenAccount.sampleRecoverNested.OwnerMint).2 = (200, none) := by
  decide

/-! ### Validation and `Build` -/

/-- C15: when `Validate` returns nil, the three derivations that `Build` performs (the
third seeded by the address of the first) all succeed, and `ValidateAndBuild` returns no
error together with the instruction that `Build` returns. -/
theorem C15_Validate_makes_Build_safe (env : AssociatedTokenAccount.Env)
    (inst : AssociatedTokenAccount.RecoverNested) (h : inst.Validate env = none) :
    (env.deriveErr inst.Wallet inst.OwnerMint = none ∧
      env.deriveErr inst.Wallet inst.NestedMint = none ∧
      env.deriveErr (env.derive inst.Wallet inst.OwnerMint) inst.NestedMint = none) ∧
    ∃ i, inst.Build env = some i ∧ inst.ValidateAndBuild env = (some i, none) ∧
      i.Complete env := by
  have hd := AssociatedTokenAccount.derivationsSucceed_of_valid env inst h
  obtain ⟨i, hb, _, hc⟩ := AssociatedTokenAccount.Build_complete_iff env inst
  refine ⟨hd, i, hb, ?_, hc.mpr hd⟩
  rw [AssociatedTokenAccount.ValidateAndBuild_of_valid env inst h, hb]

/-- The sample builder passes validation when the derivation succeeds. -/
theorem AssociatedTokenAccount.sample_valid :
    AssociatedTokenAccount.sampleRecoverNested.Validate AssociatedTokenAccount.succeedingEnv =
      none := by
  decide

/-- C15 at the sample builder, with a derivation that always succeeds. -/
theorem C15_Validate_makes_Build_safe_witness :
    AssociatedTokenAccount.sampleRecoverNested.Validate AssociatedTokenAccount.succeedingEnv =
      none ∧
    ((AssociatedTokenAccount.succeedingEnv.deriveErr
          AssociatedTokenAccount.sampleRecoverNested.Wallet
          AssociatedTokenAccount.sampleRecoverNested.OwnerMint = none ∧
        AssociatedTokenAccount.succeedingEnv.deriveErr
          AssociatedTokenAccount.sampleRecoverNested.Wallet
          AssociatedTokenAccount.sampleRecoverNested.NestedMint = none ∧
        AssociatedTokenAccount.succeedingEnv.deriveErr
          (AssociatedTokenAccount.succeedingEnv.derive
            AssociatedTokenAccount.sampleRecoverNested.Wallet
            AssociatedTokenAccount.sampleRecoverNested.OwnerMint)
          AssociatedTokenAccount.sampleRecoverNested.NestedMint = none) ∧
      ∃ i, AssociatedTokenAccount.sampleRecoverNested.Build
            AssociatedTokenAccount.succeedingEnv = some i ∧
        AssociatedTokenAccount.sampleRecoverNested.ValidateAndBuild
            AssociatedTokenAccount.succeedingEnv = (some i, none) ∧
        i.Complete AssociatedTokenAccount.succeedingEnv) :=
  ⟨AssociatedTokenAccount.sample_valid,
    C15_Validate_makes_Build_safe AssociatedTokenAccount.succeedingEnv
      AssociatedTokenAccount.sampleRecoverNested AssociatedTokenAccount.sample_valid⟩

/-! ### Frame of `Build`, setters and constructors -/

/-- C16: a call of `Build` leaves the caller's builder as it was, its account list
included: the 7 accounts are in the copy that the instruction stores. The result is the
same for two builders with equal fields, whatever their account lists were, and so for a
second call on the same builder. This holds for `RecoverNested` and `CreateIdempotent`. -/
theorem C16_Build_pure (env : AssociatedTokenAccount.Env)
    (r : AssociatedTokenAccount.RecoverNested) (c : AssociatedTokenAccount.CreateIdempotent) :
    ((r.callBuild env).1 = r ∧ (r.callBuild env).2 = r.Build env ∧
      (∃ i, (r.callBuild env).2 = some i ∧ i.Accounts.length = 7 ∧
        (r.BuildBody env).1.AccountMetaSlice = i.Accounts ∧
        i.BaseVariant.Impl = .recoverNested { r with AccountMetaSlice := i.Accounts }) ∧
      (∀ r2 : AssociatedTokenAccount.RecoverNested, r2.Wallet = r.Wallet →
        r2.OwnerMint = r.OwnerMint → r2.NestedMint = r.NestedMint →
        (r2.callBuild env).2 = (r.callBuild env).2) ∧
      ((r.callBuild env).1.callBuild env).2 = (r.callBuild env).2) ∧
    ((c.callBuild env).1 = c ∧ (c.callBuild env).2 = c.Build env ∧
      (∃ i, (c.callBuild env).2 = some i ∧ i.Accounts.length = 7 ∧
        (c.BuildBody env).1.Create.AccountMetaSlice = i.Accounts ∧
        i.BaseVariant.Impl =
          .createIdempotent { c with Create := { c.Create with AccountMetaSlice := i.Accounts } }) ∧
      (∀ c2 : AssociatedTokenAccount.CreateIdempotent, c2.Create.Payer = c.Create.Payer →
        c2.Create.Wallet = c.Create.Wallet → c2.Create.Mint = c.Create.Mint →
        c2.associatedToken = c.associatedToken → c2.programID = c.programID →
        (c2.callBuild env).2 = (c.callBuild env).2) ∧
      ((c.callBuild env).1.callBuild env).2 = (c.callBuild env).2) := by
  refine ⟨⟨rfl, rfl, ⟨_, rfl, rfl, rfl, rfl⟩, ?_, rfl⟩, ⟨rfl, rfl, ⟨_, rfl, rfl, rfl, rfl⟩, ?_, rfl⟩⟩
  · intro r2 hw ho hn
    simp [AssociatedTokenAccount.RecoverNested.callBuild,
      AssociatedTokenAccount.RecoverNested.BuildBody, hw, ho, hn]
  · intro c2 hp hw hm ha hid
    simp [AssociatedTokenAccount.CreateIdempotent.callBuild,
      AssociatedTokenAccount.CreateIdempotent.BuildBody, hp, hw, hm, ha, hid]

/-- C17: each setter puts its argument in the field it names, leaves the other fields as
they were and returns the builder; setters of different fields commute;
`NewCreateIdempotentInstruction(...).Build()` has the accounts payer, associatedToken,
wallet, mint, system program, programID, rent sysvar; `NewRecoverNestedInstruction` has
Wallet, OwnerMint and NestedMint equal to its arguments. -/
theorem C17_setters (env : AssociatedTokenAccount.Env)
    (r : AssociatedTokenAccount.RecoverNested) (c : AssociatedTokenAccount.CreateIdempotent)
    (a b payer associatedToken wallet mint programID ownerMint nestedMint : PublicKey) :
    (r.SetWallet a = ⟨a, r.OwnerMint, r.NestedMint, r.AccountMetaSlice⟩ ∧
      r.SetOwnerMint a = ⟨r.Wallet, a, r.NestedMint, r.AccountMetaSlice⟩ ∧
      r.SetNestedMint a = ⟨r.Wallet, r.OwnerMint, a, r.AccountMetaSlice⟩) ∧
    (c.SetPayer a =
        ⟨⟨a, c.Create.Wallet, c.Create.Mint, c.Create.AccountMetaSlice⟩,
          c.associatedToken, c.programID⟩ ∧
      c.SetWallet a =
        ⟨⟨c.Create.Payer, a, c.Create.Mint, c.Create.AccountMetaSlice⟩,
          c.associatedToken, c.programID⟩ ∧
      c.SetMint a =
        ⟨⟨c.Create.Payer, c.Create.Wallet, a, c.Create.AccountMetaSlice⟩,
          c.associatedToken, c.programID⟩ ∧
      c.SetAssociatedToken a = ⟨c.Create, a, c.programID⟩ ∧
      c.SetProgramID a = ⟨c.Create, c.associatedToken, a⟩) ∧
    ((r.SetWallet a).SetOwnerMint b = (r.SetOwnerMint b).SetWallet a ∧
      (r.SetWallet a).SetNestedMint b = (r.SetNestedMint b).SetWallet a ∧
      (r.SetOwnerMint a).SetNestedMint b = (r.SetNestedMint b).SetOwnerMint a) ∧
    ((c.SetPayer a).SetWallet b = (c.SetWallet b).SetPayer a ∧
      (c.SetPayer a).SetMint b = (c.SetMint b).SetPayer a ∧
      (c.SetPayer a).SetAssociatedToken b = (c.SetAssociatedToken b).SetPayer a ∧
      (c.SetPayer a).SetProgramID b = (c.SetProgramID b).SetPayer a ∧
      (c.SetWallet a).SetMint b = (c.SetMint b).SetWallet a ∧
      (c.SetWallet a).SetAssociatedToken b = (c.SetAssociatedToken b).SetWallet a ∧
      (c.SetWallet a).SetProgramID b = (c.SetProgramID b).SetWallet a ∧
      (c.SetMint a).SetAssociatedToken b = (c.SetAssociatedToken b).SetMint a ∧
      (c.SetMint a).SetProgramID b = (c.SetProgramID b).SetMint a ∧
      (c.SetAssociatedToken a).SetProgramID b = (c.SetProgramID b).SetAssociatedToken a) ∧
    (∃ i, (AssociatedTokenAccount.NewCreateIdempotentInstruction payer associatedToken wallet
          mint programID).Build env = some i ∧
      i.Accounts.map (fun m => m.PublicKey) =
        [payer, associatedToken, wallet, mint, env.SystemProgramID, programID,
          env.SysVarRentPubkey]) ∧
    ((AssociatedTokenAccount.NewRecoverNestedInstruction wallet ownerMint nestedMint).Wallet =
        wallet ∧
      (AssociatedTokenAccount.NewRecoverNestedInstruction wallet ownerMint nestedMint).OwnerMint =
        ownerMint ∧
      (AssociatedTokenAccount.NewRecoverNestedInstruction wallet ownerMint nestedMint).NestedMint =
        nestedMint) :=
  ⟨⟨rfl, rfl, rfl⟩, ⟨rfl, rfl, rfl, rfl, rfl⟩, ⟨rfl, rfl, rfl⟩,
    ⟨rfl, rfl, rfl, rfl, rfl, rfl, rfl, rfl, rfl, rfl⟩, ⟨_, rfl, rfl⟩, ⟨rfl, rfl, rfl⟩⟩

/-! ### Length and header of `Data()` for any message -/

/-- C18: for a message of any length n, `Data()` has length 112 + n, its bytes from
offset 16 on are the signer, the signature and the message, the uint16 at bytes 12–13 is
n mod 65536 and the other 14 header bytes are constants; so two instructions whose message
lengths agree modulo 65536 have the same 16-byte header. -/
theorem C18_Data_any_length (signer : PublicKey) (sig : Signature) (msg : List Byte) :
    (Ed25519SigVerify.Instruction.Data ⟨signer, sig, msg⟩).1.length = 112 + msg.length ∧
    (Ed25519SigVerify.Instruction.Data ⟨signer, sig, msg⟩).1.drop 16 =
      signer.val ++ sig.val ++ msg ∧
    Uint16At (Ed25519SigVerify.Instruction.Data ⟨signer, sig, msg⟩).1 12 =
      msg.length % 65536 ∧
    (Ed25519SigVerify.Instruction.Data ⟨signer, sig, msg⟩).1.take 12 =
      [1, 0, 48, 0, 255, 255, 16, 0, 255, 255, 112, 0] ∧
    sliceAt (Ed25519SigVerify.Instruction.Data ⟨signer, sig, msg⟩).1 14 2 = [255, 255] ∧
    ∀ (signer2 : PublicKey) (sig2 : Signature) (msg2 : List Byte),
      msg2.length % 65536 = msg.length % 65536 →
      (Ed25519SigVerify.Instruction.Data ⟨signer2, sig2, msg2⟩).1.take 16 =
        (Ed25519SigVerify.Instruction.Data ⟨signer, sig, msg⟩).1.take 16 := by
  refine ⟨Ed25519SigVerify.Data_length _, ?_,
    (Ed25519SigVerify.Data_header ⟨signer, sig, msg⟩).2.2.2, ?_, ?_, ?_⟩
  · rw [Ed25519SigVerify.Data_eq]; simp
  · rw [Ed25519SigVerify.Data_eq]; simp
  · rw [Ed25519SigVerify.Data_eq]; simp [sliceAt]
  · intro signer2 sig2 msg2 h
    rw [Ed25519SigVerify.Data_eq, Ed25519SigVerify.Data_eq]
    simp [h]

end SolanaGogo
